import Mathlib

/-!
Shallow embedding of the visual_midi layout engine
(src/visual_midi/visual_midi.py, class `Plotter`).

Python floats are modelled as exact rationals (`ℚ`); all quantities the
layout computes (note rectangles, pitch range, bar/beat grid, time window)
are rational arithmetic in the source.  Python truthiness of numbers,
`x or default`, `int()` truncation toward zero and float `%` are modelled
explicitly.  `pretty_midi` objects are modelled at the interface boundary:
notes, the elements iterated by `get_tempo_changes()` (each exposing
`min()` / `max()`), and time-signature marks.
-/

namespace VisualMidi

set_option maxRecDepth 8000

/-- A note as consumed from `pretty_midi` (`Note(velocity, pitch, start, end)`).
The `end` field is called `stop` because `end` is a Lean keyword. -/
structure Note where
  velocity : ℤ
  pitch : ℤ
  start : ℚ
  stop : ℚ
deriving DecidableEq

/-- An instrument: a program number and its list of notes. -/
structure Instrument where
  program : ℤ
  notes : List Note
deriving DecidableEq

/-- One element iterated over by `pretty_midi.get_tempo_changes()`; the code
only reads `tempo_change.min()` and `tempo_change.max()`. -/
structure TempoChange where
  min : ℚ
  max : ℚ
deriving DecidableEq

/-- `pretty_midi.TimeSignature(numerator, denominator, time)`. -/
structure TimeSignature where
  numerator : ℤ
  denominator : ℤ
  time : ℚ
deriving DecidableEq

/-- The parts of a `pretty_midi.PrettyMIDI` object the plotter reads. -/
structure PrettyMIDI where
  instruments : List Instrument
  tempoChanges : List TempoChange
  timeSignatureChanges : List TimeSignature
deriving DecidableEq

/-- `Coloring` enum (PITCH / INSTRUMENT). -/
inductive Coloring where
  | pitch
  | instrument
deriving DecidableEq

/-- Failure taxonomy of the layout engine; the source raises `Exception` /
`ValueError`, the spec names them as below. -/
inductive PlotError where
  | unknownTempo
  | multipleTempoChanges
  | multipleTimeSignatures
  | invalidTimeSignatureFormat
deriving DecidableEq

instance {ε α : Type} [DecidableEq ε] [DecidableEq α] : DecidableEq (Except ε α) :=
  fun a b =>
    match a, b with
    | Except.error e, Except.error f => decidable_of_iff (e = f) (by simp)
    | Except.error _, Except.ok _ => isFalse (by simp)
    | Except.ok _, Except.error _ => isFalse (by simp)
    | Except.ok x, Except.ok y => decidable_of_iff (x = y) (by simp)

/-- The `Plotter` object: constructor configuration plus the mutable
`_show_counter`.  `showBar` / `showBeat` are the two preset keys
(`show_bar`, `show_beat`) the layout computation reads; all other preset
keys only affect pixel rendering and are out of scope. -/
structure Plotter where
  qpm : Option ℚ
  plotPitchRangeStart : Option ℤ
  plotPitchRangeStop : Option ℤ
  plotBarRangeStart : Option ℤ
  plotBarRangeStop : Option ℤ
  plotMaxLengthBar : ℤ
  barFillAlphas : List ℚ
  coloring : Coloring
  showVelocity : Option Bool
  midiTimeSignature : Option String
  liveReload : Bool
  showCounter : ℕ
  showBar : Bool
  showBeat : Bool
deriving DecidableEq

/-- The defaults of `Plotter.__init__` (with the default preset). -/
def defaultPlotter : Plotter :=
  { qpm := none
    plotPitchRangeStart := none
    plotPitchRangeStop := none
    plotBarRangeStart := none
    plotBarRangeStop := none
    plotMaxLengthBar := 8
    barFillAlphas := [1/4, 1/20]
    coloring := Coloring.pitch
    showVelocity := none
    midiTimeSignature := none
    liveReload := false
    showCounter := 0
    showBar := true
    showBeat := true }

/-- Python truthiness of an optional number (`None` and `0` are falsy). -/
def pyTruthyQ : Option ℚ → Bool
  | none => false
  | some v => v != 0

/-- Python `x or default` for an optional rational (`None` and `0` give the
default). -/
def pyOrQ : Option ℚ → ℚ → ℚ
  | none, d => d
  | some v, d => if v = 0 then d else v

/-- Python `x or default` for an optional integer. -/
def pyOrZ : Option ℤ → ℤ → ℤ
  | none, d => d
  | some v, d => if v = 0 then d else v

/-- Python truthiness of an optional bool (`None` and `False` are falsy). -/
def pyTruthyB : Option Bool → Bool
  | none => false
  | some b => b

/-- Python truthiness of an optional string (`None` and `""` are falsy). -/
def pyTruthyS : Option String → Bool
  | none => false
  | some s => s != ""

/-- Python `int()` applied to a float: truncation toward zero. -/
def pyTrunc (q : ℚ) : ℤ :=
  if 0 ≤ q then ⌊q⌋ else ⌈q⌉

/-- Python `%` on floats: `a - b * floor(a / b)` (sign of the divisor);
only used with a nonzero divisor in the source. -/
def pyMod (a b : ℚ) : ℚ := a - b * ⌊a / b⌋

/-- Python `int(str)`: `String.toInt?` after stripping whitespace.  This
models the inputs exercised here (optional minus sign, decimal digits);
exotic Python forms such as a leading plus or digit underscores are not
modelled. -/
def pyInt? (s : String) : Option ℤ := s.trim.toInt?

/-- `sys.maxsize` (64-bit). -/
def maxsize : ℚ := 2 ^ 63 - 1

/-- `Plotter._MAX_PITCH`. -/
def MAX_PITCH : ℤ := 127

/-- `Plotter._MIN_PITCH`. -/
def MIN_PITCH : ℤ := 0

/-- `Plotter._scale_time`: `qpm / 120`. -/
def scaleTime (qpm : ℚ) : ℚ := qpm / 120

/-- Number of entries of `bokeh.colors.groups.purple`, the fixed palette
`colors` used by `_get_color`. -/
def colorsLen : ℤ := 18

/-- `Plotter._get_color`, reduced to the palette index it selects (the
subsequent `lighten(0.1)` is a rendering hint carried along unchanged).
The Lean `Coloring` type is closed, so the defensive `else raise` branch
of the source is unreachable here. -/
def getColor (c : Coloring) (indexInstrument pitch : ℤ) : ℤ :=
  match c with
  | Coloring.pitch => (pitch - 36) % colorsLen
  | Coloring.instrument => ((indexInstrument + 1) * 5) % colorsLen

/-- A mark that qualifies inside `_get_qpm`'s loop:
`tempo_change.min() and tempo_change.max() and tempo_change.min() == tempo_change.max()`. -/
def qualifiesTempo (t : TempoChange) : Bool :=
  t.min != 0 && t.max != 0 && t.min == t.max

/-- The loop body and epilogue of `Plotter._get_qpm`: scan the tempo
changes, remembering the last qualifying value in `qpm` (initially `None`);
a second qualifying mark raises; a missing (or falsy) final value raises. -/
def getQpmLoop : List TempoChange → Option ℚ → Except PlotError ℚ
  | [], acc =>
    match acc with
    | some q => if q = 0 then Except.error PlotError.unknownTempo else Except.ok q
    | none => Except.error PlotError.unknownTempo
  | t :: rest, acc =>
    if qualifiesTempo t then
      if pyTruthyQ acc then Except.error PlotError.multipleTempoChanges
      else getQpmLoop rest (some t.min)
    else getQpmLoop rest acc

/-- `Plotter._get_qpm`: `if self._qpm: return self._qpm` (truthiness), else
scan the tempo changes. -/
def getQpm (override : Option ℚ) (tempoChanges : List TempoChange) : Except PlotError ℚ :=
  match override with
  | some q => if q = 0 then getQpmLoop tempoChanges none else Except.ok q
  | none => getQpmLoop tempoChanges none

/-- Parsing of the `midi_time_signature` override string:
`numerator, denominator = s.split("/")` then `TimeSignature(int(n), int(d), 0)`.
Tuple-unpacking or `int()` failure raises `ValueError`; the
`pretty_midi.TimeSignature` constructor additionally raises `ValueError`
unless both integers are positive. -/
def parseTimeSignatureOverride (s : String) : Except PlotError TimeSignature :=
  match s.splitOn "/" with
  | [a, b] =>
    match pyInt? a, pyInt? b with
    | some n, some d =>
      if 0 < n ∧ 0 < d then Except.ok ⟨n, d, 0⟩
      else Except.error PlotError.invalidTimeSignatureFormat
    | _, _ => Except.error PlotError.invalidTimeSignatureFormat
  | _ => Except.error PlotError.invalidTimeSignatureFormat

/-- Time-signature resolution of `Plotter.plot` (lines 298-307): a truthy
override string wins regardless of the score; otherwise more than one mark
raises, one mark is used as-is, none defaults to 4/4. -/
def getTimeSignature (p : Plotter) (midi : PrettyMIDI) : Except PlotError TimeSignature :=
  if pyTruthyS p.midiTimeSignature then
    parseTimeSignatureOverride (p.midiTimeSignature.getD "")
  else
    match midi.timeSignatureChanges with
    | [] => Except.ok ⟨4, 4, 0⟩
    | [ts] => Except.ok ts
    | _ :: _ :: _ => Except.error PlotError.multipleTimeSignatures

/-- One entry of the bokeh `data` dict: a note rectangle plus its hover
metadata.  `color` is the palette index chosen by `_get_color`. -/
structure NoteRect where
  program : ℤ
  top : ℚ
  bottom : ℚ
  left : ℚ
  right : ℚ
  duration : ℚ
  velocity : ℤ
  color : ℤ
deriving DecidableEq

/-- Accumulator of the note scan of `Plotter.plot` (lines 210-236). -/
structure ScanState where
  data : List NoteRect
  pitchMin : Option ℤ
  pitchMax : Option ℤ
  firstNoteStart : Option ℚ
  lastNoteEnd : Option ℚ
deriving DecidableEq

/-- Body of the inner note loop: updates the pitch extremes with the
Python `x or default` idiom, appends the note rectangle, and updates the
first-start / last-end trackers. -/
def processNote (p : Plotter) (qpm : ℚ) (indexInstrument program : ℤ)
    (st : ScanState) (n : Note) : ScanState :=
  let pitchMin := min (pyOrZ st.pitchMin MAX_PITCH) n.pitch
  let pitchMax := max (pyOrZ st.pitchMax MIN_PITCH) n.pitch
  let color := getColor p.coloring indexInstrument n.pitch
  let noteStart := n.start / scaleTime qpm
  let noteEnd := (n.start + (n.stop - n.start)) / scaleTime qpm
  let rect : NoteRect :=
    { program := program
      top := (n.pitch : ℚ)
      bottom :=
        if pyTruthyB p.showVelocity then (n.pitch : ℚ) + (n.velocity : ℚ) / 127
        else (n.pitch : ℚ) + 1
      left := noteStart
      right := noteEnd
      duration := noteEnd - noteStart
      velocity := n.velocity
      color := color }
  { data := st.data ++ [rect]
    pitchMin := some pitchMin
    pitchMax := some pitchMax
    firstNoteStart := some (min (pyOrQ st.firstNoteStart maxsize) noteStart)
    lastNoteEnd := some (max (pyOrQ st.lastNoteEnd 0) noteEnd) }

/-- Body of the outer instrument loop: fold the notes, then increment
`index_instrument`. -/
def scanInstrument (p : Plotter) (qpm : ℚ) (acc : ScanState × ℤ)
    (inst : Instrument) : ScanState × ℤ :=
  (inst.notes.foldl (processNote p qpm acc.2 inst.program) acc.1, acc.2 + 1)

/-- The full note scan over all instruments, starting from the empty
state and `index_instrument = 0`. -/
def scanNotes (p : Plotter) (qpm : ℚ) (midi : PrettyMIDI) : ScanState :=
  (midi.instruments.foldl (scanInstrument p qpm) (⟨[], none, none, none, none⟩, 0)).1

/-- Lines 238-244: if any tracker is `None` (no notes), substitute the
defaults `(pitch_min, pitch_max, first_note_start, last_note_end) =
(MIN_PITCH, MIN_PITCH + 5, 0, 0)`. -/
def applyEmptyDefaults (st : ScanState) : ℤ × ℤ × ℚ × ℚ :=
  if st.firstNoteStart = none ∨ st.lastNoteEnd = none ∨
      st.pitchMin = none ∨ st.pitchMax = none then
    (MIN_PITCH, MIN_PITCH + 5, 0, 0)
  else
    (st.pitchMin.getD 0, st.pitchMax.getD 0, st.firstNoteStart.getD 0, st.lastNoteEnd.getD 0)

/-- Lines 247-250: the pitch-range-start override is used verbatim when
given (`is not None`), else `min(MAX_PITCH, pitch_min)`. -/
def resolvePitchMin (override : Option ℤ) (pitchMin : ℤ) : ℤ :=
  match override with
  | some v => v
  | none => min MAX_PITCH pitchMin

/-- Lines 251-254: the pitch-range-stop override is used verbatim when
given, else `max(MIN_PITCH, pitch_max)`. -/
def resolvePitchMax (override : Option ℤ) (pitchMax : ℤ) : ℤ :=
  match override with
  | some v => v
  | none => max MIN_PITCH pitchMax

/-- Line 312: `quarter_per_seconds = qpm / 60`. -/
def quarterPerSeconds (qpm : ℚ) : ℚ := qpm / 60

/-- Lines 313-314: `seconds_per_quarter = 1 / (quarter_per_seconds * self._scale_time(qpm))`. -/
def secondsPerQuarter (qpm : ℚ) : ℚ := 1 / (quarterPerSeconds qpm * scaleTime qpm)

/-- Line 315: `seconds_per_beat = seconds_per_quarter / (denominator / 4)`. -/
def secondsPerBeat (qpm : ℚ) (denominator : ℤ) : ℚ :=
  secondsPerQuarter qpm / ((denominator : ℚ) / 4)

/-- Line 316: `seconds_per_bar = seconds_per_beat * numerator`. -/
def secondsPerBar (qpm : ℚ) (denominator numerator : ℤ) : ℚ :=
  secondsPerBeat qpm denominator * (numerator : ℚ)

/-- Lines 319-331: the plot end time.  With a bar-stop override the end is
`override * seconds_per_bar`; otherwise truncate `last_note_end` to a bar
multiple and add one bar unless `last_note_end % seconds_per_bar == 0`. -/
def plotEndTimeCalc (barRangeStop : Option ℤ) (lastNoteEnd spb : ℚ) : ℚ :=
  match barRangeStop with
  | some b => (b : ℚ) * spb
  | none =>
    let e := (pyTrunc (lastNoteEnd / spb) : ℚ) * spb
    if pyMod lastNoteEnd spb ≠ 0 then e + spb else e

/-- Lines 334-339: the plot start time.  With a bar-start override the
start is `override * seconds_per_bar`; otherwise
`max(plot_end_time - plot_max_length_bar * spb, int(first_note_start / spb) * spb)`. -/
def plotStartTimeCalc (barRangeStart : Option ℤ) (plotMaxLengthBar : ℤ)
    (firstNoteStart endTime spb : ℚ) : ℚ :=
  match barRangeStart with
  | some b => (b : ℚ) * spb
  | none =>
    let startTime := (pyTrunc (firstNoteStart / spb) : ℚ) * spb
    let plotMaxLengthTime := (plotMaxLengthBar : ℚ) * spb
    max (endTime - plotMaxLengthTime) startTime

/-- Structural version of the `_frange` generator with an explicit fuel;
`frange` below supplies fuel equal to the exact iteration count of the
Python `while x < y` loop, so the guard `x < y` still decides every step. -/
def frangeAux (jump : ℚ) : ℕ → ℚ → ℚ → List ℚ
  | 0, _, _ => []
  | n + 1, x, y => if x < y then x :: frangeAux jump n (x + jump) y else []

/-- Exact number of iterations of the `_frange` loop for a positive jump
(the Python generator does not terminate for `jump ≤ 0`; the layout only
calls it with positive steps). -/
def frangeFuel (x y jump : ℚ) : ℕ :=
  if 0 < jump then (⌈(y - x) / jump⌉).toNat else 0

/-- `_frange(x, y, jump)`: `x, x + jump, x + 2 * jump, ...` while `< y`
(exact rational accumulation). -/
def frange (x y jump : ℚ) : List ℚ := frangeAux jump (frangeFuel x y jump) x y

/-- Inner part of the bar-grid loop (lines 343-358): pair each bar start
time with `bar_fill_alphas[bar_count % len(bar_fill_alphas)]`,
`bar_count` starting at 0 at the window start.  `getD _ 0` models the
list indexing (Python would raise on an empty alpha list). -/
def barBandsLoop (alphas : List ℚ) : List ℚ → ℕ → List (ℚ × ℚ)
  | [], _ => []
  | t :: rest, barCount =>
    (t, alphas.getD (barCount % alphas.length) 0) :: barBandsLoop alphas rest (barCount + 1)

/-- Bar bands: one `(left, fill_alpha)` per bar of the visible window
when `show_bar` is set (each band extends to `left + seconds_per_bar`). -/
def barBandsCalc (showBar : Bool) (alphas : List ℚ) (startT endT spb : ℚ) : List (ℚ × ℚ) :=
  if showBar then barBandsLoop alphas (frange startT endT spb) 0 else []

/-- Beat lines (lines 361-371): the left edge of each beat box of the
visible window when `show_beat` is set. -/
def beatLinesCalc (showBeat : Bool) (startT endT spBeat : ℚ) : List ℚ :=
  if showBeat then frange startT endT spBeat else []

/-- Python `range(a, b)` over integers. -/
def rangeZ (a b : ℤ) : List ℤ := (List.range (b - a).toNat).map (fun k => a + k)

/-- Pitch rows (lines 273-294): one `(pitch, fill_alpha)` per pitch of
`range(pitch_min, pitch_max + 1)`, shaded on even pitches. -/
def pitchBandsCalc (pitchMin pitchMax : ℤ) : List (ℤ × ℚ) :=
  (rangeZ pitchMin (pitchMax + 1)).map (fun p => (p, if p % 2 = 0 then 3/20 else 0))

/-- Lines 412-413: `"Visual MIDI (%s QPM, %s/%s)" % (str(int(qpm)), numerator, denominator)`. -/
def titleText (qpm : ℚ) (ts : TimeSignature) : String :=
  "Visual MIDI (" ++ toString (pyTrunc qpm) ++ " QPM, " ++
    toString ts.numerator ++ "/" ++ toString ts.denominator ++ ")"

/-- The geometric/layout content computed by one `Plotter.plot` call.
`firstNoteStart` / `lastNoteEnd` record the scan trackers (after the
empty-score defaulting) that the window computation consumed. -/
structure LayoutResult where
  qpm : ℚ
  data : List NoteRect
  pitchMin : ℤ
  pitchMax : ℤ
  pitchRange : ℤ
  pitchBands : List (ℤ × ℚ)
  timeSignature : TimeSignature
  secondsPerBeat : ℚ
  secondsPerBar : ℚ
  plotStartTime : ℚ
  plotEndTime : ℚ
  barBands : List (ℚ × ℚ)
  beatLines : List ℚ
  firstNoteStart : ℚ
  lastNoteEnd : ℚ
  title : String
deriving DecidableEq

/-- The pure part of `Plotter.plot` after tempo and time signature have
been resolved: note scan, empty-score defaults, pitch range, grid window,
bar/beat bands, title. -/
def buildLayout (p : Plotter) (midi : PrettyMIDI) (qpm : ℚ) (ts : TimeSignature) : LayoutResult :=
  let st := scanNotes p qpm midi
  let d := applyEmptyDefaults st
  let pitchMin := resolvePitchMin p.plotPitchRangeStart d.1
  let pitchMax := resolvePitchMax p.plotPitchRangeStop d.2.1
  let firstNoteStart := d.2.2.1
  let lastNoteEnd := d.2.2.2
  let spBeat := secondsPerBeat qpm ts.denominator
  let spBar := secondsPerBar qpm ts.denominator ts.numerator
  let endT := plotEndTimeCalc p.plotBarRangeStop lastNoteEnd spBar
  let startT := plotStartTimeCalc p.plotBarRangeStart p.plotMaxLengthBar firstNoteStart endT spBar
  { qpm := qpm
    data := st.data
    pitchMin := pitchMin
    pitchMax := pitchMax
    pitchRange := pitchMax + 1 - pitchMin
    pitchBands := pitchBandsCalc pitchMin pitchMax
    timeSignature := ts
    secondsPerBeat := spBeat
    secondsPerBar := spBar
    plotStartTime := startT
    plotEndTime := endT
    barBands := barBandsCalc p.showBar p.barFillAlphas startT endT spBar
    beatLines := beatLinesCalc p.showBeat startT endT spBeat
    firstNoteStart := firstNoteStart
    lastNoteEnd := lastNoteEnd
    title := titleText qpm ts }

/-- `Plotter.plot`: resolve the tempo (line 182), build all primitives,
resolve the time signature (lines 298-307), compute the grid window and
return the layout.  Both resolutions abort the call on failure. -/
def plot (p : Plotter) (midi : PrettyMIDI) : Except PlotError LayoutResult :=
  match getQpm p.qpm midi.tempoChanges with
  | Except.error e => Except.error e
  | Except.ok qpm =>
    match getTimeSignature p midi with
    | Except.error e => Except.error e
    | Except.ok ts => Except.ok (buildLayout p midi qpm ts)

/-- The only state change `Plotter.show` makes on the plotter:
`self._show_counter += 1` (line 479). -/
def showIncrement (p : Plotter) : Plotter := { p with showCounter := p.showCounter + 1 }

/-! Concrete instances used by the claim witnesses and counterexamples. -/

/-- A plotter with an explicit 120 QPM override and all other defaults. -/
def plotterQ120 : Plotter := { defaultPlotter with qpm := some 120 }

/-- A score with no instruments, no tempo marks and no time signatures. -/
def emptyMidi : PrettyMIDI := ⟨[], [], []⟩

/-- One instrument, a single note ending at t = 4.3 s. -/
def midiLastEnd43 : PrettyMIDI := ⟨[⟨0, [⟨100, 60, 0, 43/10⟩]⟩], [], []⟩

/-- The layout produced for `midiLastEnd43` at 120 QPM, 4/4. -/
def layoutLastEnd43 : LayoutResult := buildLayout plotterQ120 midiLastEnd43 120 ⟨4, 4, 0⟩

/-- One instrument with a note starting exactly at t = 0 followed by a
note starting at t = 5. -/
def midiZeroStart : PrettyMIDI := ⟨[⟨0, [⟨100, 40, 0, 1/2⟩, ⟨100, 41, 5, 11/2⟩]⟩], [], []⟩

/-- One instrument with a pitch-0 note followed by a pitch-50 note. -/
def midiPitchZero : PrettyMIDI := ⟨[⟨0, [⟨100, 0, 0, 1⟩, ⟨100, 50, 1, 2⟩]⟩], [], []⟩

/-- The layout produced for `midiPitchZero` at 120 QPM, 4/4. -/
def layoutPitchZero : LayoutResult := buildLayout plotterQ120 midiPitchZero 120 ⟨4, 4, 0⟩

/-- A plotter whose pitch-range overrides are out of order (start 60,
stop 10). -/
def plotterBadPitchRange : Plotter :=
  { defaultPlotter with
    qpm := some 120
    plotPitchRangeStart := some 60
    plotPitchRangeStop := some 10 }

/-- One instrument with a single pitch-64 note. -/
def midiOneNote64 : PrettyMIDI := ⟨[⟨0, [⟨100, 64, 0, 1⟩]⟩], [], []⟩

/-- A plotter with a "3/8" time-signature override. -/
def plotterTS38 : Plotter := { defaultPlotter with midiTimeSignature := some "3/8" }

/-- A score carrying a (9, 9) time-signature mark, used to check that the
override ignores the score's marks. -/
def midiTSMark99 : PrettyMIDI := ⟨[], [], [⟨9, 9, 9⟩]⟩

/-- A score with exactly one 3/4 time-signature mark. -/
def midiTSMark34 : PrettyMIDI := ⟨[], [], [⟨3, 4, 0⟩]⟩

/-- A score with two time-signature marks. -/
def midiTSMarkTwo : PrettyMIDI := ⟨[], [], [⟨3, 4, 0⟩, ⟨6, 8, 1⟩]⟩

/-- Scan-state invariant: the four trackers are set together, and when set
the recorded pitch extremes are ordered. -/
def ScanInv (st : ScanState) : Prop :=
  (st.pitchMin = none ∧ st.pitchMax = none ∧
    st.firstNoteStart = none ∧ st.lastNoteEnd = none) ∨
  (∃ a b, st.pitchMin = some a ∧ st.pitchMax = some b ∧ a ≤ b ∧
    st.firstNoteStart ≠ none ∧ st.lastNoteEnd ≠ none)

/-! Helper lemmas. -/

theorem qualifiesTempo_min_ne_zero {t : TempoChange} (h : qualifiesTempo t = true) :
    t.min ≠ 0 := by
  simp only [qualifiesTempo, Bool.and_eq_true, bne_iff_ne, ne_eq, beq_iff_eq] at h
  exact h.1.1

theorem getQpmLoop_some (marks : List TempoChange) (q : ℚ) (hq : q ≠ 0) :
    getQpmLoop marks (some q) =
      if (marks.filter qualifiesTempo).isEmpty then Except.ok q
      else Except.error PlotError.multipleTempoChanges := by
  induction marks with
  | nil => simp [getQpmLoop, hq]
  | cons t rest ih =>
    by_cases h : qualifiesTempo t
    · simp [getQpmLoop, h, pyTruthyQ, hq, List.filter_cons]
    · simp [getQpmLoop, h, List.filter_cons, ih]

theorem getQpmLoop_none (marks : List TempoChange) :
    getQpmLoop marks none =
      match marks.filter qualifiesTempo with
      | [] => Except.error PlotError.unknownTempo
      | [t] => Except.ok t.min
      | _ :: _ :: _ => Except.error PlotError.multipleTempoChanges := by
  induction marks with
  | nil => simp [getQpmLoop]
  | cons t rest ih =>
    by_cases h : qualifiesTempo t
    · have hmin : t.min ≠ 0 := qualifiesTempo_min_ne_zero h
      have hstep : getQpmLoop (t :: rest) none = getQpmLoop rest (some t.min) := by
        simp [getQpmLoop, h, pyTruthyQ]
      rw [hstep, getQpmLoop_some rest t.min hmin]
      rcases hf : rest.filter qualifiesTempo with _ | ⟨u, us⟩ <;>
        simp [List.filter_cons, h, hf]
    · rw [show getQpmLoop (t :: rest) none = getQpmLoop rest none by
        simp [getQpmLoop, h]]
      rw [ih]
      simp [List.filter_cons, h]

theorem plotEndTimeCalc_eq_ceil (last spb : ℚ) (hspb : 0 < spb) (hlast : 0 ≤ last) :
    plotEndTimeCalc none last spb = (⌈last / spb⌉ : ℚ) * spb := by
  have hq0 : (0 : ℚ) ≤ last / spb := div_nonneg hlast hspb.le
  have htr : pyTrunc (last / spb) = ⌊last / spb⌋ := if_pos hq0
  by_cases h0 : pyMod last spb = 0
  · have h1 : last = spb * (⌊last / spb⌋ : ℚ) := by
      unfold pyMod at h0; linarith
    have hfl : (⌊last / spb⌋ : ℚ) = last / spb := by
      rw [h1, mul_div_cancel_left₀ _ hspb.ne', Int.floor_intCast]
    have hceil : ⌈last / spb⌉ = ⌊last / spb⌋ := by
      have h2 := Int.ceil_intCast (α := ℚ) ⌊last / spb⌋
      rw [hfl] at h2
      exact h2
    unfold plotEndTimeCalc
    simp [h0, htr, hceil]
  · have hne : (⌊last / spb⌋ : ℚ) ≠ last / spb := by
      intro he
      apply h0
      unfold pyMod
      rw [he, mul_div_cancel₀ _ hspb.ne', sub_self]
    have hlt : ⌊last / spb⌋ < ⌈last / spb⌉ := by
      rcases lt_or_eq_of_le (Int.floor_le_ceil (last / spb)) with h | h
      · exact h
      · exfalso
        apply hne
        have h1 : (⌊last / spb⌋ : ℚ) ≤ last / spb := Int.floor_le _
        have h2 : last / spb ≤ (⌈last / spb⌉ : ℚ) := Int.le_ceil _
        rw [← h] at h2
        exact le_antisymm h1 h2
    have hceil : ⌈last / spb⌉ = ⌊last / spb⌋ + 1 :=
      le_antisymm (Int.ceil_le_floor_add_one _) (by omega)
    unfold plotEndTimeCalc
    simp only [h0, if_true, htr, hceil, ne_eq, not_false_eq_true]
    push_cast
    ring

theorem ceil_mul_isLeast (last spb : ℚ) (hspb : 0 < spb) :
    IsLeast {t : ℚ | (∃ k : ℤ, t = (k : ℚ) * spb) ∧ last ≤ t}
      ((⌈last / spb⌉ : ℚ) * spb) := by
  constructor
  · exact ⟨⟨⌈last / spb⌉, rfl⟩, (div_le_iff₀ hspb).mp (Int.le_ceil _)⟩
  · rintro t ⟨⟨k, rfl⟩, hle⟩
    have h1 : last / spb ≤ (k : ℚ) := by
      rw [div_le_iff₀ hspb]
      exact hle
    have h2 : ⌈last / spb⌉ ≤ k := Int.ceil_le.mpr h1
    exact mul_le_mul_of_nonneg_right (by exact_mod_cast h2) hspb.le

theorem plot_ok_elim {p : Plotter} {m : PrettyMIDI} {r : LayoutResult}
    (h : plot p m = Except.ok r) :
    ∃ q ts, getQpm p.qpm m.tempoChanges = Except.ok q ∧
      getTimeSignature p m = Except.ok ts ∧ r = buildLayout p m q ts := by
  unfold plot at h
  rcases hq : getQpm p.qpm m.tempoChanges with e | q
  · rw [hq] at h
    simp at h
  · rw [hq] at h
    rcases hts : getTimeSignature p m with e | ts
    · rw [hts] at h
      simp at h
    · rw [hts] at h
      simp only [Except.ok.injEq] at h
      exact ⟨q, ts, rfl, rfl, h.symm⟩

theorem frangeAux_get? (j : ℚ) :
    ∀ (n : ℕ) (x y : ℚ) (i : ℕ), i < (frangeAux j n x y).length →
      (frangeAux j n x y).get? i = some (x + (i : ℚ) * j) := by
  intro n
  induction n with
  | zero =>
    intro x y i h
    simp [frangeAux] at h
  | succ n ih =>
    intro x y i h
    by_cases hxy : x < y
    · simp only [frangeAux, if_pos hxy] at h ⊢
      cases i with
      | zero => simp
      | succ i =>
        rw [List.get?_cons_succ, ih (x + j) y i (by simpa using h)]
        congr 1
        push_cast
        ring
    · simp [frangeAux, if_neg hxy] at h

theorem barBandsLoop_length (alphas : List ℚ) :
    ∀ (l : List ℚ) (c : ℕ), (barBandsLoop alphas l c).length = l.length := by
  intro l
  induction l with
  | nil => intro c; simp [barBandsLoop]
  | cons t rest ih => intro c; simp [barBandsLoop, ih]

theorem barBandsLoop_get? (alphas : List ℚ) :
    ∀ (l : List ℚ) (c i : ℕ),
      (barBandsLoop alphas l c).get? i =
        (l.get? i).map (fun t => (t, alphas.getD ((c + i) % alphas.length) 0)) := by
  intro l
  induction l with
  | nil => intro c i; simp [barBandsLoop]
  | cons t rest ih =>
    intro c i
    cases i with
    | zero => simp [barBandsLoop]
    | succ i =>
      simp only [barBandsLoop, List.get?_cons_succ]
      rw [ih (c + 1) i]
      have hc : c + 1 + i = c + (i + 1) := by omega
      rw [hc]

theorem instrFold_empty (p : Plotter) (q : ℚ) :
    ∀ (l : List Instrument) (acc : ScanState × ℤ), (∀ i ∈ l, i.notes = []) →
      (l.foldl (scanInstrument p q) acc).1 = acc.1 := by
  intro l
  induction l with
  | nil => intro acc _; rfl
  | cons inst rest ih =>
    intro acc h
    simp only [List.foldl_cons]
    rw [ih _ (fun i hi => h i (List.mem_cons_of_mem _ hi))]
    have hi : inst.notes = [] := h inst (List.mem_cons_self _ _)
    simp [scanInstrument, hi]

theorem scanNotes_empty (p : Plotter) (q : ℚ) (m : PrettyMIDI)
    (h : ∀ i ∈ m.instruments, i.notes = []) :
    scanNotes p q m = ⟨[], none, none, none, none⟩ := by
  unfold scanNotes
  rw [instrFold_empty p q m.instruments _ h]

theorem notesFold_top (p : Plotter) (q : ℚ) (idx prog : ℤ) :
    ∀ (notes : List Note) (st : ScanState) (rect : NoteRect),
      rect ∈ (notes.foldl (processNote p q idx prog) st).data →
      rect ∈ st.data ∨ ∃ n ∈ notes, rect.top = (n.pitch : ℚ) := by
  intro notes
  induction notes with
  | nil =>
    intro st rect h
    exact Or.inl h
  | cons n rest ih =>
    intro st rect h
    rcases ih (processNote p q idx prog st n) rect h with h1 | ⟨u, hu, ht⟩
    · simp only [processNote, List.mem_append, List.mem_singleton] at h1
      rcases h1 with h2 | h2
      · exact Or.inl h2
      · refine Or.inr ⟨n, List.mem_cons_self _ _, ?_⟩
        rw [h2]
    · exact Or.inr ⟨u, List.mem_cons_of_mem _ hu, ht⟩

theorem instrFold_top (p : Plotter) (q : ℚ) :
    ∀ (l : List Instrument) (acc : ScanState × ℤ) (rect : NoteRect),
      rect ∈ (l.foldl (scanInstrument p q) acc).1.data →
      rect ∈ acc.1.data ∨ ∃ inst ∈ l, ∃ n ∈ inst.notes, rect.top = (n.pitch : ℚ) := by
  intro l
  induction l with
  | nil =>
    intro acc rect h
    exact Or.inl h
  | cons inst rest ih =>
    intro acc rect h
    rcases ih (scanInstrument p q acc inst) rect h with h1 | ⟨u, hu, hn⟩
    · rcases notesFold_top p q acc.2 inst.program inst.notes acc.1 rect h1 with h2 | ⟨n, hn, ht⟩
      · exact Or.inl h2
      · exact Or.inr ⟨inst, List.mem_cons_self _ _, n, hn, ht⟩
    · exact Or.inr ⟨u, List.mem_cons_of_mem _ hu, hn⟩

theorem scanNotes_top (p : Plotter) (q : ℚ) (m : PrettyMIDI) (rect : NoteRect)
    (h : rect ∈ (scanNotes p q m).data) :
    ∃ inst ∈ m.instruments, ∃ n ∈ inst.notes, rect.top = (n.pitch : ℚ) := by
  unfold scanNotes at h
  rcases instrFold_top p q m.instruments _ rect h with h1 | h1
  · simp at h1
  · exact h1

theorem processNote_inv (p : Plotter) (q : ℚ) (idx prog : ℤ) (st : ScanState) (n : Note) :
    ScanInv (processNote p q idx prog st n) := by
  right
  exact ⟨min (pyOrZ st.pitchMin MAX_PITCH) n.pitch, max (pyOrZ st.pitchMax MIN_PITCH) n.pitch,
    rfl, rfl, le_trans (min_le_right _ _) (le_max_right _ _),
    by simp [processNote], by simp [processNote]⟩

theorem notesFold_inv (p : Plotter) (q : ℚ) (idx prog : ℤ) :
    ∀ (notes : List Note) (st : ScanState), ScanInv st →
      ScanInv (notes.foldl (processNote p q idx prog) st) := by
  intro notes
  induction notes with
  | nil => intro st h; exact h
  | cons n rest ih =>
    intro st _
    exact ih (processNote p q idx prog st n) (processNote_inv p q idx prog st n)

theorem instrFold_inv (p : Plotter) (q : ℚ) :
    ∀ (l : List Instrument) (acc : ScanState × ℤ), ScanInv acc.1 →
      ScanInv ((l.foldl (scanInstrument p q) acc).1) := by
  intro l
  induction l with
  | nil => intro acc h; exact h
  | cons inst rest ih =>
    intro acc h
    exact ih (scanInstrument p q acc inst)
      (notesFold_inv p q acc.2 inst.program inst.notes acc.1 h)

theorem scanNotes_inv (p : Plotter) (q : ℚ) (m : PrettyMIDI) :
    ScanInv (scanNotes p q m) := by
  unfold scanNotes
  exact instrFold_inv p q m.instruments _ (Or.inl ⟨rfl, rfl, rfl, rfl⟩)

theorem plotEndTimeCalc_zero (spb : ℚ) : plotEndTimeCalc none 0 spb = 0 := by
  unfold plotEndTimeCalc pyMod pyTrunc
  simp

theorem plotStartTimeCalc_zero (mlb : ℤ) (spb : ℚ) (h : 0 ≤ (mlb : ℚ) * spb) :
    plotStartTimeCalc none mlb 0 0 spb = 0 := by
  unfold plotStartTimeCalc pyTrunc
  simp only [zero_div, Int.floor_zero, le_refl, if_pos, Int.cast_zero, zero_mul, zero_sub]
  rw [max_eq_right]
  linarith

/-! Claim theorems. -/

/-- C1 (counterexample): the spec formula
`secondsPerBeat = (60 / qpm) * (4 / denominator)` fails on the code at
qpm = 60, denominator = 4: the layout's beat duration is 2 seconds, the
formula gives 1 second.  (Lines 313-314 additionally divide by
`_scale_time(qpm) = qpm / 120`.) -/
theorem secondsPerBeat_spec_formula_fails :
    secondsPerBeat 60 4 = 2 ∧ (60 / 60 : ℚ) * (4 / 4) = 1 ∧
      secondsPerBeat 60 4 ≠ (60 / 60 : ℚ) * (4 / 4) := by
  with_unfolding_all decide

/-- C1 (amended): for every qpm and time signature, the layout's beat
duration is `(60 / qpm) * (120 / qpm) * (4 / denominator)` — the spec
formula divided by `_scale_time(qpm) = qpm / 120`, so the two agree
exactly when qpm = 120 — and its bar duration is the beat duration times
the numerator. -/
theorem secondsPerBeat_closed_form (qpm : ℚ) (den num : ℤ) :
    secondsPerBeat qpm den = (60 / qpm) * (120 / qpm) * (4 / (den : ℚ)) ∧
    secondsPerBar qpm den num = secondsPerBeat qpm den * (num : ℚ) := by
  constructor
  · unfold secondsPerBeat secondsPerQuarter quarterPerSeconds scaleTime
    rcases eq_or_ne qpm 0 with h | h
    · simp [h]
    · rcases eq_or_ne (den : ℚ) 0 with hd | hd
      · simp [hd]
      · field_simp
  · rfl

/-- C2: when no bar-stop override is given, the window end produced by
`plot` is the least multiple of `seconds_per_bar` that is at least
`last_note_end` (so a last note exactly on a bar boundary adds no extra
trailing bar); concretely, at 120 QPM in 4/4 (`seconds_per_bar = 2`), a
last note ending at 4.0 gives a window end of 4.0 and a last note ending
at 4.3 gives 6.0. -/
theorem plotEndTime_isLeast :
    (∀ (p : Plotter) (m : PrettyMIDI) (r : LayoutResult),
      plot p m = Except.ok r → p.plotBarRangeStop = none →
      0 < r.secondsPerBar → 0 ≤ r.lastNoteEnd →
      IsLeast {t : ℚ | (∃ k : ℤ, t = (k : ℚ) * r.secondsPerBar) ∧ r.lastNoteEnd ≤ t}
        r.plotEndTime) ∧
    secondsPerBar 120 4 4 = 2 ∧ plotEndTimeCalc none 4 2 = 4 ∧
    plotEndTimeCalc none (43 / 10) 2 = 6 := by
  refine ⟨?_, by with_unfolding_all decide, by with_unfolding_all decide,
    by with_unfolding_all decide⟩
  intro p m r h hstop hpos hnn
  obtain ⟨q, ts, hq, hts, rfl⟩ := plot_ok_elim h
  have he : (buildLayout p m q ts).plotEndTime =
      plotEndTimeCalc none (buildLayout p m q ts).lastNoteEnd
        (buildLayout p m q ts).secondsPerBar := by
    rw [show (buildLayout p m q ts).plotEndTime =
        plotEndTimeCalc p.plotBarRangeStop (buildLayout p m q ts).lastNoteEnd
          (buildLayout p m q ts).secondsPerBar from rfl, hstop]
  rw [he, plotEndTimeCalc_eq_ceil _ _ hpos hnn]
  exact ceil_mul_isLeast _ _ hpos

/-- C2 (witness): the layout of a score whose single note ends at 4.3 s,
at 120 QPM in 4/4: its window end (6.0) is the least bar multiple at or
after the last note end. -/
theorem plotEndTime_isLeast_witness :
    plot plotterQ120 midiLastEnd43 = Except.ok layoutLastEnd43 ∧
    layoutLastEnd43.plotEndTime = 6 ∧ layoutLastEnd43.lastNoteEnd = 43 / 10 ∧
    layoutLastEnd43.secondsPerBar = 2 ∧
    IsLeast {t : ℚ | (∃ k : ℤ, t = (k : ℚ) * layoutLastEnd43.secondsPerBar) ∧
      layoutLastEnd43.lastNoteEnd ≤ t} layoutLastEnd43.plotEndTime := by
  have hok : plot plotterQ120 midiLastEnd43 = Except.ok layoutLastEnd43 := by
    with_unfolding_all rfl
  exact ⟨hok, by with_unfolding_all decide, by with_unfolding_all decide,
    by with_unfolding_all decide,
    plotEndTime_isLeast.1 plotterQ120 midiLastEnd43 layoutLastEnd43 hok rfl
      (by with_unfolding_all decide) (by with_unfolding_all decide)⟩

/-- C3: evaluation of the code at the failing input.  With default
configuration at 120 QPM, notes starting at t = 0 and t = 5 (last end
5.5): line 234's `first_note_start or sys.maxsize` treats the stored 0.0
as missing, so `first_note_start` ends as 5, `windowStart` becomes 4.0 and
the window starts after the bar containing the first note, while the
claim's formula `max(windowEnd - maxWindowBars * secondsPerBar,
floorToBar(firstNoteStart)) = max(6 - 16, 0) = 0`. -/
theorem plotStartTime_skips_zero_start_note :
    (plot plotterQ120 midiZeroStart).toOption.map
        (fun r => (r.plotStartTime, r.plotEndTime, r.firstNoteStart, r.secondsPerBar)) =
      some (4, 6, 5, 2) ∧
    (∃ i ∈ midiZeroStart.instruments, ∃ n ∈ i.notes, n.start = 0) ∧
    max ((6 : ℚ) - 8 * 2) 0 = 0 ∧ (4 : ℚ) ≠ 0 := by
  with_unfolding_all decide

/-- C4 (counterexample): on a score with no notes (120 QPM override, all
other defaults) the code produces `windowEnd = 0`, not
`windowEnd = secondsPerBar = 2`: with `last_note_end` defaulted to 0,
line 327 gives 0 and the `%`-test on line 330 is false, so no bar is
added.  The pitch range is `[0, 5]` and the call succeeds. -/
theorem plot_empty_score_windowEnd_zero :
    (plot plotterQ120 emptyMidi).toOption.map
        (fun r => (r.plotStartTime, r.plotEndTime, r.secondsPerBar, r.pitchMin, r.pitchMax)) =
      some (0, 0, 2, 0, 5) ∧ (0 : ℚ) ≠ 2 := by
  with_unfolding_all decide

/-- C4 (amended): for every score with no notes and no window or pitch
overrides, when tempo and time signature resolve (with a positive bar
duration and a nonnegative bar budget) `plot` succeeds and produces
`windowStart = 0`, `windowEnd = 0` (an empty zero-width window, not one
empty bar) and pitch range `[0, 5]`. -/
theorem plot_empty_score_layout :
    ∀ (p : Plotter) (m : PrettyMIDI) (q : ℚ) (ts : TimeSignature),
      (∀ i ∈ m.instruments, i.notes = []) →
      p.plotBarRangeStart = none → p.plotBarRangeStop = none →
      p.plotPitchRangeStart = none → p.plotPitchRangeStop = none →
      getQpm p.qpm m.tempoChanges = Except.ok q →
      getTimeSignature p m = Except.ok ts →
      0 < secondsPerBar q ts.denominator ts.numerator →
      0 ≤ p.plotMaxLengthBar →
      ∃ r, plot p m = Except.ok r ∧ r.plotStartTime = 0 ∧ r.plotEndTime = 0 ∧
        r.pitchMin = 0 ∧ r.pitchMax = 5 := by
  intro p m q ts hnotes hbs hbe hps hpe hq hts hspb hmax
  have hscan := scanNotes_empty p q m hnotes
  have hd : applyEmptyDefaults (⟨[], none, none, none, none⟩ : ScanState) =
      (MIN_PITCH, MIN_PITCH + 5, 0, 0) := rfl
  have hmaxlen : 0 ≤ (p.plotMaxLengthBar : ℚ) * secondsPerBar q ts.denominator ts.numerator :=
    mul_nonneg (by exact_mod_cast hmax) hspb.le
  refine ⟨buildLayout p m q ts, ?_, ?_, ?_, ?_, ?_⟩
  · unfold plot
    rw [hq, hts]
  · show plotStartTimeCalc p.plotBarRangeStart p.plotMaxLengthBar
      (applyEmptyDefaults (scanNotes p q m)).2.2.1
      (plotEndTimeCalc p.plotBarRangeStop (applyEmptyDefaults (scanNotes p q m)).2.2.2
        (secondsPerBar q ts.denominator ts.numerator))
      (secondsPerBar q ts.denominator ts.numerator) = 0
    rw [hscan, hd, hbs, hbe]
    show plotStartTimeCalc none p.plotMaxLengthBar 0
      (plotEndTimeCalc none 0 (secondsPerBar q ts.denominator ts.numerator))
      (secondsPerBar q ts.denominator ts.numerator) = 0
    rw [plotEndTimeCalc_zero]
    exact plotStartTimeCalc_zero _ _ hmaxlen
  · show plotEndTimeCalc p.plotBarRangeStop (applyEmptyDefaults (scanNotes p q m)).2.2.2
      (secondsPerBar q ts.denominator ts.numerator) = 0
    rw [hscan, hd, hbe]
    exact plotEndTimeCalc_zero _
  · show resolvePitchMin p.plotPitchRangeStart (applyEmptyDefaults (scanNotes p q m)).1 = 0
    rw [hscan, hd, hps]
    rfl
  · show resolvePitchMax p.plotPitchRangeStop (applyEmptyDefaults (scanNotes p q m)).2.1 = 5
    rw [hscan, hd, hpe]
    rfl

/-- C4 (witness): the empty score at 120 QPM: `plot` succeeds with
`windowStart = windowEnd = 0` and pitch range `[0, 5]`. -/
theorem plot_empty_score_layout_witness :
    ∃ r, plot plotterQ120 emptyMidi = Except.ok r ∧ r.plotStartTime = 0 ∧
      r.plotEndTime = 0 ∧ r.pitchMin = 0 ∧ r.pitchMax = 5 :=
  plot_empty_score_layout plotterQ120 emptyMidi 120 ⟨4, 4, 0⟩ (by simp [emptyMidi])
    rfl rfl rfl rfl (by with_unfolding_all decide) (by with_unfolding_all decide)
    (by with_unfolding_all decide) (by decide)

/-- C5 (counterexample): two tempo marks that both report the single
steady value 120 form exactly one distinct qualifying value, yet
`_get_qpm` raises `MultipleTempoChangesUnsupported` (line 155's `if qpm:`
fires on the second qualifying mark regardless of its value) instead of
returning 120 as the claim states. -/
theorem getQpm_duplicate_tempo_rejected :
    ((([⟨120, 120⟩, ⟨120, 120⟩] : List TempoChange).filter qualifiesTempo).map
        TempoChange.min).dedup = [120] ∧
    getQpm none [⟨120, 120⟩, ⟨120, 120⟩] = Except.error PlotError.multipleTempoChanges := by
  with_unfolding_all decide

/-- C5 (amended): if the qpm override is set to a truthy (nonzero) value
it is returned unchanged without consulting the score; otherwise, over the
marks whose recorded minimum and maximum are both nonzero and equal, zero
qualifying marks fail with UnknownTempo, two or more qualifying marks fail
with MultipleTempoChangesUnsupported even when they all report the same
value, and exactly one qualifying mark has its value returned. -/
theorem getQpm_resolution :
    (∀ (q : ℚ) (marks : List TempoChange), q ≠ 0 → getQpm (some q) marks = Except.ok q) ∧
    (∀ marks : List TempoChange, marks.filter qualifiesTempo = [] →
      getQpm none marks = Except.error PlotError.unknownTempo) ∧
    (∀ marks : List TempoChange, 2 ≤ (marks.filter qualifiesTempo).length →
      getQpm none marks = Except.error PlotError.multipleTempoChanges) ∧
    (∀ (marks : List TempoChange) (t : TempoChange), marks.filter qualifiesTempo = [t] →
      getQpm none marks = Except.ok t.min) := by
  refine ⟨?_, ?_, ?_, ?_⟩
  · intro q marks hq
    simp [getQpm, hq]
  · intro marks h
    simp [getQpm, getQpmLoop_none, h]
  · intro marks h
    show getQpmLoop marks none = Except.error PlotError.multipleTempoChanges
    rw [getQpmLoop_none]
    rcases hf : marks.filter qualifiesTempo with _ | ⟨a, _ | ⟨b, l⟩⟩
    · rw [hf] at h
      simp at h
    · rw [hf] at h
      simp at h
    · rfl
  · intro marks t h
    show getQpmLoop marks none = Except.ok t.min
    rw [getQpmLoop_none, h]

/-- C5 (witness): concrete tempo resolutions — an override of 90 is passed
through; no marks fail with UnknownTempo; steady marks at 90 and 140 fail
with MultipleTempoChangesUnsupported; a single steady 150 mark resolves to
150. -/
theorem getQpm_resolution_witness :
    getQpm (some 90) [] = Except.ok 90 ∧
    getQpm none [] = Except.error PlotError.unknownTempo ∧
    getQpm none [⟨90, 90⟩, ⟨140, 140⟩] = Except.error PlotError.multipleTempoChanges ∧
    getQpm none [⟨150, 150⟩] = Except.ok 150 :=
  ⟨getQpm_resolution.1 90 [] (by norm_num),
    getQpm_resolution.2.1 [] (by with_unfolding_all decide),
    getQpm_resolution.2.2.1 [⟨90, 90⟩, ⟨140, 140⟩] (by with_unfolding_all decide),
    getQpm_resolution.2.2.2 [⟨150, 150⟩] ⟨150, 150⟩ (by with_unfolding_all decide)⟩

/-- C6: time-signature resolution.  A set (non-empty) override string is
parsed independently of the score's marks, and a string not parseable as
`int/int` fails with InvalidTimeSignatureFormat; without an override, no
marks default to 4/4, exactly one mark is used as-is, and more than one
mark fails with MultipleTimeSignaturesUnsupported. -/
theorem getTimeSignature_resolution :
    (∀ (p : Plotter) (m : PrettyMIDI) (s : String), p.midiTimeSignature = some s →
      s ≠ "" → getTimeSignature p m = parseTimeSignatureOverride s) ∧
    (∀ s : String,
      (match s.splitOn "/" with
        | [a, b] => (pyInt? a).isSome && (pyInt? b).isSome
        | _ => false) = false →
      parseTimeSignatureOverride s = Except.error PlotError.invalidTimeSignatureFormat) ∧
    (∀ (p : Plotter) (m : PrettyMIDI), p.midiTimeSignature = none →
      m.timeSignatureChanges = [] → getTimeSignature p m = Except.ok ⟨4, 4, 0⟩) ∧
    (∀ (p : Plotter) (m : PrettyMIDI) (ts : TimeSignature), p.midiTimeSignature = none →
      m.timeSignatureChanges = [ts] → getTimeSignature p m = Except.ok ts) ∧
    (∀ (p : Plotter) (m : PrettyMIDI), p.midiTimeSignature = none →
      2 ≤ m.timeSignatureChanges.length →
      getTimeSignature p m = Except.error PlotError.multipleTimeSignatures) := by
  refine ⟨?_, ?_, ?_, ?_, ?_⟩
  · intro p m s hs hne
    simp [getTimeSignature, hs, pyTruthyS, hne]
  · intro s h
    unfold parseTimeSignatureOverride
    rcases hsp : s.splitOn "/" with _ | ⟨a, _ | ⟨b, _ | ⟨c, l⟩⟩⟩
    · rfl
    · rfl
    · rw [hsp] at h
      rcases ha : pyInt? a with _ | n
      · simp [ha]
      · rcases hb : pyInt? b with _ | d
        · simp [ha, hb]
        · simp [ha, hb] at h
    · rfl
  · intro p m hps hm
    simp [getTimeSignature, hps, pyTruthyS, hm]
  · intro p m ts hps hm
    simp [getTimeSignature, hps, pyTruthyS, hm]
  · intro p m hps hm
    rcases hl : m.timeSignatureChanges with _ | ⟨a, _ | ⟨b, l⟩⟩
    · rw [hl] at hm
      simp at hm
    · rw [hl] at hm
      simp at hm
    · simp [getTimeSignature, hps, pyTruthyS, hl]

/-- C6 (witness): a "3/8" override wins over a score mark and parses to
3/8; "abc" fails to parse; no marks give 4/4; one 3/4 mark is used as-is;
two marks fail. -/
theorem getTimeSignature_resolution_witness :
    getTimeSignature plotterTS38 midiTSMark99 = parseTimeSignatureOverride "3/8" ∧
    parseTimeSignatureOverride "3/8" = Except.ok ⟨3, 8, 0⟩ ∧
    parseTimeSignatureOverride "abc" = Except.error PlotError.invalidTimeSignatureFormat ∧
    getTimeSignature defaultPlotter emptyMidi = Except.ok ⟨4, 4, 0⟩ ∧
    getTimeSignature defaultPlotter midiTSMark34 = Except.ok ⟨3, 4, 0⟩ ∧
    getTimeSignature defaultPlotter midiTSMarkTwo = Except.error PlotError.multipleTimeSignatures :=
  ⟨getTimeSignature_resolution.1 plotterTS38 midiTSMark99 "3/8" rfl (by decide),
    by with_unfolding_all decide,
    getTimeSignature_resolution.2.1 "abc" (by with_unfolding_all decide),
    getTimeSignature_resolution.2.2.1 defaultPlotter emptyMidi rfl rfl,
    getTimeSignature_resolution.2.2.2.1 defaultPlotter midiTSMark34 ⟨3, 4, 0⟩ rfl rfl,
    getTimeSignature_resolution.2.2.2.2 defaultPlotter midiTSMarkTwo rfl
      (by with_unfolding_all decide)⟩

/-- C7: evaluation of the code at the failing input.  For a score holding
a pitch-0 note followed by a pitch-50 note (no overrides), line 217's
`pitch_min or self._MAX_PITCH` treats the stored 0 as missing, so the code
resolves pitchMin = 50, while the claim's `min(127, min over all pitches)`
is `min(127, 0) = 0 ≠ 50`. -/
theorem pitchMin_loses_zero_pitch :
    (plot plotterQ120 midiPitchZero).toOption.map (fun r => (r.pitchMin, r.pitchMax)) =
      some (50, 50) ∧
    (∃ i ∈ midiPitchZero.instruments, ∃ n ∈ i.notes, n.pitch = 0) ∧
    min MAX_PITCH 0 = 0 ∧ (50 : ℤ) ≠ 0 := by
  with_unfolding_all decide

/-- C8 (counterexample): with pitch-range overrides start = 60 and
stop = 10 (used verbatim by lines 247-254), the resolved range of a
successful `plot` call has pitchMin = 60 > 10 = pitchMax, refuting
`pitchMin ≤ pitchMax` for every configuration. -/
theorem pitch_override_violates_order :
    (plot plotterBadPitchRange midiOneNote64).toOption.map
        (fun r => (r.pitchMin, r.pitchMax)) = some (60, 10) ∧
    ¬ (60 : ℤ) ≤ 10 := by
  with_unfolding_all decide

/-- C8 (amended): for every successful `plot` call, if no pitch-range
override is given then the resolved range satisfies pitchMin ≤ pitchMax
(overridden bounds are taken verbatim and may violate the order), and —
under any configuration — if every note's pitch lies in [0, 127] then
every note rectangle's top (the note's pitch) lies in [0, 127]. -/
theorem pitch_range_invariants :
    ∀ (p : Plotter) (m : PrettyMIDI) (r : LayoutResult), plot p m = Except.ok r →
      ((p.plotPitchRangeStart = none → p.plotPitchRangeStop = none →
        r.pitchMin ≤ r.pitchMax) ∧
       ((∀ inst ∈ m.instruments, ∀ n ∈ inst.notes, 0 ≤ n.pitch ∧ n.pitch ≤ 127) →
        ∀ rect ∈ r.data, 0 ≤ rect.top ∧ rect.top ≤ 127)) := by
  intro p m r h
  obtain ⟨q, ts, hq, hts, rfl⟩ := plot_ok_elim h
  constructor
  · intro hps hpe
    show resolvePitchMin p.plotPitchRangeStart (applyEmptyDefaults (scanNotes p q m)).1 ≤
      resolvePitchMax p.plotPitchRangeStop (applyEmptyDefaults (scanNotes p q m)).2.1
    rw [hps, hpe]
    rcases scanNotes_inv p q m with ⟨h1, h2, h3, h4⟩ | ⟨a, b, h1, h2, hab, h5, h6⟩
    · rw [show applyEmptyDefaults (scanNotes p q m) = (MIN_PITCH, MIN_PITCH + 5, 0, 0) by
        unfold applyEmptyDefaults
        rw [if_pos (Or.inl h3)]]
      decide
    · rw [show applyEmptyDefaults (scanNotes p q m) =
          ((scanNotes p q m).pitchMin.getD 0, (scanNotes p q m).pitchMax.getD 0,
            (scanNotes p q m).firstNoteStart.getD 0, (scanNotes p q m).lastNoteEnd.getD 0) by
        unfold applyEmptyDefaults
        rw [if_neg]
        simp [h1, h2, h5, h6]]
      rw [h1, h2]
      show resolvePitchMin none a ≤ resolvePitchMax none b
      calc resolvePitchMin none a ≤ a := min_le_right _ _
        _ ≤ b := hab
        _ ≤ resolvePitchMax none b := le_max_right _ _
  · intro hp rect hrect
    obtain ⟨inst, hinst, n, hn, htop⟩ :=
      scanNotes_top p q m rect (by exact hrect)
    obtain ⟨h0, h127⟩ := hp inst hinst n hn
    rw [htop]
    constructor
    · exact_mod_cast h0
    · exact_mod_cast h127

/-- C8 (witness): the layout of the pitch-0/pitch-50 score at 120 QPM with
no overrides: pitchMin ≤ pitchMax and every rectangle top lies in
[0, 127]. -/
theorem pitch_range_invariants_witness :
    layoutPitchZero.pitchMin ≤ layoutPitchZero.pitchMax ∧
    (∀ rect ∈ layoutPitchZero.data, 0 ≤ rect.top ∧ rect.top ≤ 127) := by
  have hok : plot plotterQ120 midiPitchZero = Except.ok layoutPitchZero := by
    with_unfolding_all rfl
  have h := pitch_range_invariants plotterQ120 midiPitchZero layoutPitchZero hok
  exact ⟨h.1 rfl rfl, h.2 (by with_unfolding_all decide)⟩

/-- C9: the layout is a deterministic function of (score, configuration):
`plot` on a plotter whose show-counter has been replaced by any value, or
incremented as `show` does, returns the identical result. -/
theorem plot_ignores_showCounter (p : Plotter) (m : PrettyMIDI) (n : ℕ) :
    plot { p with showCounter := n } m = plot p m ∧
    plot (showIncrement p) m = plot p m :=
  ⟨rfl, rfl⟩

/-- C10: bar-band fill alphas are cycled by the bar's ordinal position
within the visible window — band i of the window starting at `startT`
sits at `startT + i * spb` and carries `barFillAlphas[i % len]`, so the
bar at the window start always receives `barFillAlphas[0]`; concretely,
left-truncating a [0, 6) window (bands at 0, 2, 4 with alphas 1/4, 1/20,
1/4) to [2, 6) re-phases the shading: the bar at absolute time 4 changes
from alpha 1/4 to alpha 1/20. -/
theorem barBands_alpha_by_window_ordinal :
    (∀ (alphas : List ℚ) (startT endT spb : ℚ), alphas ≠ [] → ∀ i : ℕ,
      i < (barBandsCalc true alphas startT endT spb).length →
      (barBandsCalc true alphas startT endT spb).get? i =
        some (startT + (i : ℚ) * spb, alphas.getD (i % alphas.length) 0)) ∧
    barBandsCalc true [1/4, 1/20] 0 6 2 = [(0, 1/4), (2, 1/20), (4, 1/4)] ∧
    barBandsCalc true [1/4, 1/20] 2 6 2 = [(2, 1/4), (4, 1/20)] := by
  refine ⟨?_, by with_unfolding_all decide, by with_unfolding_all decide⟩
  intro alphas startT endT spb _ i hi
  unfold barBandsCalc at hi ⊢
  rw [if_pos rfl] at hi ⊢
  rw [barBandsLoop_length] at hi
  rw [barBandsLoop_get?]
  unfold frange at hi ⊢
  rw [frangeAux_get? _ _ _ _ _ hi]
  simp

/-- C10 (witness): the first band of the [0, 6) window with alphas
[1/4, 1/20] starts at the window start and carries alpha 1/4 =
barFillAlphas[0]. -/
theorem barBands_alpha_by_window_ordinal_witness :
    (barBandsCalc true [1/4, 1/20] 0 6 2).get? 0 = some (0, 1/4) := by
  have h := barBands_alpha_by_window_ordinal.1 [1/4, 1/20] 0 6 2 (by simp) 0
    (by with_unfolding_all decide)
  rw [h]
  with_unfolding_all decide

end VisualMidi
